import Mathlib

/-!
Shallow embedding of the Object built-in of the jerryscript engine
(src/src/libecmabuiltins/ecma-builtin-object-object.c): the sorted
property-name table, the non-instantiated bitmask, lazy property
instantiation, the routine dispatcher and the parameter-count table,
together with proofs of the specified properties.
-/

set_option maxRecDepth 4000

/-- Simple (immediate) ECMA values, from the ecma_simple_value enumeration
(ecma-globals.h; the header is outside src, members named in the source). -/
inductive ecma_simple_value where
  | empty
  | undefined
  | null_value
  | bool_false
  | bool_true
deriving DecidableEq

/-- Magic string identifiers. Modelled from the spec: the magic-string
enumeration header is outside src; the spec fixes that the built-in's table
must be strictly ascending (verified at initialization), so codes are
assigned in table order, with the identifiers outside the Object built-in's
table (toString, valueOf, hasOwnProperty) given codes beyond the table. -/
inductive ecma_magic_string_id where
  | prototype
  | length
  | get_prototype_of_ul
  | get_own_property_descriptor_ul
  | get_own_property_names_ul
  | create
  | define_property_ul
  | define_properties_ul
  | seal
  | freeze
  | prevent_extensions_ul
  | is_sealed_ul
  | is_frozen_ul
  | is_extensible
  | keys
  | to_string_ul
  | value_of_ul
  | has_own_property_ul
deriving DecidableEq

/-- Numeric code of a magic string identifier (the enumeration value used
for ordering by the binary search). Ascending in table order, per the
sortedness invariant the source asserts at initialization. -/
def ecma_magic_string_code : ecma_magic_string_id → Nat
  | .prototype => 0
  | .length => 1
  | .get_prototype_of_ul => 2
  | .get_own_property_descriptor_ul => 3
  | .get_own_property_names_ul => 4
  | .create => 5
  | .define_property_ul => 6
  | .define_properties_ul => 7
  | .seal => 8
  | .freeze => 9
  | .prevent_extensions_ul => 10
  | .is_sealed_ul => 11
  | .is_frozen_ul => 12
  | .is_extensible => 13
  | .keys => 14
  | .to_string_ul => 15
  | .value_of_ul => 16
  | .has_own_property_ul => 17

/-- Built-in object identifier of the Object built-in
(ECMA_BUILTIN_ID_OBJECT; numeric value modelled, the enum is outside src). -/
def ECMA_BUILTIN_ID_OBJECT : Nat := 0

/-- Class tag of the Object built-in (ECMA_OBJECT_CLASS_OBJECT; numeric
value modelled, the enum is outside src). -/
def ECMA_OBJECT_CLASS_OBJECT : Nat := 0

/-- ECMA values (ecma_value_t): simple values, boxed numbers, and object
references. Only the function objects produced by the built-in registration
path appear in this development; the function-object constructor is
modelled from the spec (ecma_builtin_make_function_object_for_routine is
outside src): it records the built-in id and the routine id it dispatches. -/
inductive ecma_value where
  | simple : ecma_simple_value → ecma_value
  | number : Nat → ecma_value
  | function_object : Nat → ecma_magic_string_id → ecma_value
deriving DecidableEq

/-- Construction of a simple value (ecma_make_simple_value). -/
def ecma_make_simple_value (v : ecma_simple_value) : ecma_value :=
  ecma_value.simple v

/-- Whether a value is a callable Function object (the values built by the
dispatcher's registration path are exactly these). -/
def ecma_value_is_callable_function : ecma_value → Bool
  | .function_object _ _ => true
  | _ => false

/-- Property names as the engine sees them: either an interned magic string
or a non-interned heap string. -/
inductive ecma_string where
  | magic : ecma_magic_string_id → ecma_string
  | heap : String → ecma_string
deriving DecidableEq

/-- Test whether the string is interned, and its id (ecma_is_string_magic). -/
def ecma_is_string_magic : ecma_string → Option ecma_magic_string_id
  | .magic id => some id
  | .heap _ => none

/-- A named data property (ecma_create_named_data_property): name, the
writable / enumerable / configurable attributes, and the stored value. -/
structure ecma_property where
  name : ecma_string
  writable : Bool
  enumerable : Bool
  configurable : Bool
  value : ecma_value
deriving DecidableEq

/-- The state of the Object built-in object relevant to this development:
the internal class and built-in-id slots, the is-builtin flag, the
non-instantiated built-in mask 0..31 (a uint32, stored as a Nat below
2 to the 32nd), and the list of materialized named properties. -/
structure ecma_builtin_object_state where
  class_id : Nat
  built_in_id : Nat
  is_builtin : Bool
  mask : Nat
  properties : List ecma_property
deriving DecidableEq

/-- The Object built-in's sorted property-name table
(ecma_builtin_object_property_names, in source order). -/
def ecma_builtin_object_property_names : List ecma_magic_string_id :=
  [ .prototype,
    .length,
    .get_prototype_of_ul,
    .get_own_property_descriptor_ul,
    .get_own_property_names_ul,
    .create,
    .define_property_ul,
    .define_properties_ul,
    .seal,
    .freeze,
    .prevent_extensions_ul,
    .is_sealed_ul,
    .is_frozen_ul,
    .is_extensible,
    .keys ]

/-- Number of the Object built-in's properties (the table's length). -/
def ecma_builtin_object_property_number : Nat :=
  ecma_builtin_object_property_names.length

/-- The freshly initialized Object built-in (ecma_builtin_init_object_object). The mask is set to (1u shifted left by the table size) minus 1:
all low bits pending. -/
def ecma_builtin_init_object_object : ecma_builtin_object_state :=
  { class_id := ECMA_OBJECT_CLASS_OBJECT,
    built_in_id := ECMA_BUILTIN_ID_OBJECT,
    is_builtin := true,
    mask := (1 <<< ecma_builtin_object_property_number) - 1,
    properties := [] }

/-- Modelled from the spec: ecma_builtin_bin_search_for_magic_string_id_in_array
is outside src; the spec states the sorted table is binary-searched for the
identifier, reporting the index when present and not-found when absent.
Fuel-driven binary search over codes on the half-open interval lo..hi. -/
def ecma_builtin_bin_search_aux (codes : List Nat) (target : Nat) :
    Nat → Nat → Nat → Option Nat
  | 0, _, _ => none
  | fuel + 1, lo, hi =>
    if lo < hi then
      let mid := (lo + hi) / 2
      let v := codes.getD mid 0
      if target = v then some mid
      else if target < v then ecma_builtin_bin_search_aux codes target fuel lo mid
      else ecma_builtin_bin_search_aux codes target fuel (mid + 1) hi
    else none

/-- Binary search of a magic string id in a sorted table of length num;
some index when found, none when absent (the source returns -1). -/
def ecma_builtin_bin_search_for_magic_string_id_in_array
    (names : List ecma_magic_string_id) (num : Nat) (id : ecma_magic_string_id) :
    Option Nat :=
  ecma_builtin_bin_search_aux (names.map ecma_magic_string_code)
    (ecma_magic_string_code id) (num + 1) 0 num

/-- Fatal engine-bug signals: the explicit not-implemented marker of
intentionally stubbed algorithms (it records the routine's name and the
argument values the handler received, so an invocation is observable), and
the unreachable-code marker. Modelled from the spec: the JERRY macros are
outside src; the spec mandates an explicit fatal marker, never a
plausible-looking return. -/
inductive engine_fatal where
  | unimplemented : String → List ecma_value → engine_fatal
  | unreachable : engine_fatal
deriving DecidableEq

/-- Completion values (ecma_completion_value_t): a kind tag and a payload. -/
inductive ecma_completion_value where
  | normal : ecma_value → ecma_completion_value
  | throw_completion : ecma_value → ecma_completion_value
  | return_completion : ecma_value → ecma_completion_value
  | exit_completion : ecma_value → ecma_completion_value
deriving DecidableEq

/-- Modelled from the spec: JERRY_UNIMPLEMENTED_REF_UNUSED_VARS is outside
src; it signals the explicit not-implemented fatal marker instead of
returning a completion value. -/
def JERRY_UNIMPLEMENTED_REF_UNUSED_VARS (routine : String)
    (args : List ecma_value) : Except engine_fatal ecma_completion_value :=
  .error (.unimplemented routine args)

/-- The Object object's getPrototypeOf routine (stub). -/
def ecma_builtin_object_object_get_prototype_of (arg : ecma_value) :
    Except engine_fatal ecma_completion_value :=
  JERRY_UNIMPLEMENTED_REF_UNUSED_VARS "getPrototypeOf" [arg]

/-- The Object object's getOwnPropertyNames routine (stub). -/
def ecma_builtin_object_object_get_own_property_names (arg : ecma_value) :
    Except engine_fatal ecma_completion_value :=
  JERRY_UNIMPLEMENTED_REF_UNUSED_VARS "getOwnPropertyNames" [arg]

/-- The Object object's seal routine (stub). -/
def ecma_builtin_object_object_seal (arg : ecma_value) :
    Except engine_fatal ecma_completion_value :=
  JERRY_UNIMPLEMENTED_REF_UNUSED_VARS "seal" [arg]

/-- The Object object's freeze routine (stub). -/
def ecma_builtin_object_object_freeze (arg : ecma_value) :
    Except engine_fatal ecma_completion_value :=
  JERRY_UNIMPLEMENTED_REF_UNUSED_VARS "freeze" [arg]

/-- The Object object's preventExtensions routine (stub). -/
def ecma_builtin_object_object_prevent_extensions (arg : ecma_value) :
    Except engine_fatal ecma_completion_value :=
  JERRY_UNIMPLEMENTED_REF_UNUSED_VARS "preventExtensions" [arg]

/-- The Object object's isSealed routine (stub). -/
def ecma_builtin_object_object_is_sealed (arg : ecma_value) :
    Except engine_fatal ecma_completion_value :=
  JERRY_UNIMPLEMENTED_REF_UNUSED_VARS "isSealed" [arg]

/-- The Object object's isFrozen routine (stub). -/
def ecma_builtin_object_object_is_frozen (arg : ecma_value) :
    Except engine_fatal ecma_completion_value :=
  JERRY_UNIMPLEMENTED_REF_UNUSED_VARS "isFrozen" [arg]

/-- The Object object's isExtensible routine (stub). -/
def ecma_builtin_object_object_is_extensible (arg : ecma_value) :
    Except engine_fatal ecma_completion_value :=
  JERRY_UNIMPLEMENTED_REF_UNUSED_VARS "isExtensible" [arg]

/-- The Object object's keys routine (stub). -/
def ecma_builtin_object_object_keys (arg : ecma_value) :
    Except engine_fatal ecma_completion_value :=
  JERRY_UNIMPLEMENTED_REF_UNUSED_VARS "keys" [arg]

/-- The Object object's getOwnPropertyDescriptor routine (stub). -/
def ecma_builtin_object_object_get_own_property_descriptor
    (arg1 arg2 : ecma_value) : Except engine_fatal ecma_completion_value :=
  JERRY_UNIMPLEMENTED_REF_UNUSED_VARS "getOwnPropertyDescriptor" [arg1, arg2]

/-- The Object object's create routine (stub). -/
def ecma_builtin_object_object_create (arg1 arg2 : ecma_value) :
    Except engine_fatal ecma_completion_value :=
  JERRY_UNIMPLEMENTED_REF_UNUSED_VARS "create" [arg1, arg2]

/-- The Object object's defineProperties routine (stub). -/
def ecma_builtin_object_object_define_properties (arg1 arg2 : ecma_value) :
    Except engine_fatal ecma_completion_value :=
  JERRY_UNIMPLEMENTED_REF_UNUSED_VARS "defineProperties" [arg1, arg2]

/-- The Object object's defineProperty routine (stub). -/
def ecma_builtin_object_object_define_property (arg1 arg2 arg3 : ecma_value) :
    Except engine_fatal ecma_completion_value :=
  JERRY_UNIMPLEMENTED_REF_UNUSED_VARS "defineProperty" [arg1, arg2, arg3]

/-- Number of a routine's parameters
(ecma_builtin_object_get_routine_parameters_number); the default case is
JERRY_UNREACHABLE. -/
def ecma_builtin_object_get_routine_parameters_number :
    ecma_magic_string_id → Except engine_fatal Nat
  | .get_prototype_of_ul
  | .get_own_property_names_ul
  | .seal
  | .freeze
  | .prevent_extensions_ul
  | .is_sealed_ul
  | .is_frozen_ul
  | .is_extensible
  | .keys => .ok 1
  | .get_own_property_descriptor_ul
  | .create
  | .define_properties_ul => .ok 2
  | .define_property_ul => .ok 3
  | _ => .error .unreachable

/-- Dispatcher of the Object object's built-in routines
(ecma_builtin_object_dispatch_routine). Each argument position beyond the
supplied count defaults to the Undefined simple value; the default case is
JERRY_UNREACHABLE. -/
def ecma_builtin_object_dispatch_routine (builtin_routine_id : ecma_magic_string_id)
    (arguments_list : List ecma_value) (arguments_number : Nat) :
    Except engine_fatal ecma_completion_value :=
  let value_undefined := ecma_make_simple_value .undefined
  match builtin_routine_id with
  | .get_prototype_of_ul =>
    let arg := if arguments_number ≥ 1 then arguments_list.getD 0 value_undefined
               else value_undefined
    ecma_builtin_object_object_get_prototype_of arg
  | .get_own_property_names_ul =>
    let arg := if arguments_number ≥ 1 then arguments_list.getD 0 value_undefined
               else value_undefined
    ecma_builtin_object_object_get_own_property_names arg
  | .seal =>
    let arg := if arguments_number ≥ 1 then arguments_list.getD 0 value_undefined
               else value_undefined
    ecma_builtin_object_object_seal arg
  | .freeze =>
    let arg := if arguments_number ≥ 1 then arguments_list.getD 0 value_undefined
               else value_undefined
    ecma_builtin_object_object_freeze arg
  | .prevent_extensions_ul =>
    let arg := if arguments_number ≥ 1 then arguments_list.getD 0 value_undefined
               else value_undefined
    ecma_builtin_object_object_prevent_extensions arg
  | .is_sealed_ul =>
    let arg := if arguments_number ≥ 1 then arguments_list.getD 0 value_undefined
               else value_undefined
    ecma_builtin_object_object_is_sealed arg
  | .is_frozen_ul =>
    let arg := if arguments_number ≥ 1 then arguments_list.getD 0 value_undefined
               else value_undefined
    ecma_builtin_object_object_is_frozen arg
  | .is_extensible =>
    let arg := if arguments_number ≥ 1 then arguments_list.getD 0 value_undefined
               else value_undefined
    ecma_builtin_object_object_is_extensible arg
  | .keys =>
    let arg := if arguments_number ≥ 1 then arguments_list.getD 0 value_undefined
               else value_undefined
    ecma_builtin_object_object_keys arg
  | .get_own_property_descriptor_ul =>
    let arg1 := if arguments_number ≥ 1 then arguments_list.getD 0 value_undefined
                else value_undefined
    let arg2 := if arguments_number ≥ 2 then arguments_list.getD 1 value_undefined
                else value_undefined
    ecma_builtin_object_object_get_own_property_descriptor arg1 arg2
  | .create =>
    let arg1 := if arguments_number ≥ 1 then arguments_list.getD 0 value_undefined
                else value_undefined
    let arg2 := if arguments_number ≥ 2 then arguments_list.getD 1 value_undefined
                else value_undefined
    ecma_builtin_object_object_create arg1 arg2
  | .define_properties_ul =>
    let arg1 := if arguments_number ≥ 1 then arguments_list.getD 0 value_undefined
                else value_undefined
    let arg2 := if arguments_number ≥ 2 then arguments_list.getD 1 value_undefined
                else value_undefined
    ecma_builtin_object_object_define_properties arg1 arg2
  | .define_property_ul =>
    let arg1 := if arguments_number ≥ 1 then arguments_list.getD 0 value_undefined
                else value_undefined
    let arg2 := if arguments_number ≥ 2 then arguments_list.getD 1 value_undefined
                else value_undefined
    let arg3 := if arguments_number ≥ 3 then arguments_list.getD 2 value_undefined
                else value_undefined
    ecma_builtin_object_object_define_property arg1 arg2 arg3
  | _ => .error .unreachable

/-- Clearing bit index in the uint32 mask: the source computes
bit = 1u shifted left by index, then ands the mask with the complement of
bit; on a uint32 the complement of bit is (2 to the 32nd minus 1) xor bit. -/
def ecma_builtin_mask_clear_bit (mask index : Nat) : Nat :=
  mask &&& ((2 ^ 32 - 1) ^^^ (1 <<< index))

/-- Lazy instantiation (ecma_builtin_object_try_to_instantiate_property) of
one of the Object built-in's properties. Returns the new property and the
updated object state, none when the name is not an interned magic string,
is absent from the table, or its mask bit is already clear; the prototype
slot is an unimplemented stub and the switch default is JERRY_UNREACHABLE. -/
def ecma_builtin_object_try_to_instantiate_property
    (obj : ecma_builtin_object_state) (prop_name : ecma_string) :
    Except engine_fatal (Option ecma_property × ecma_builtin_object_state) :=
  match ecma_is_string_magic prop_name with
  | none => .ok (none, obj)
  | some id =>
    match ecma_builtin_bin_search_for_magic_string_id_in_array
        ecma_builtin_object_property_names ecma_builtin_object_property_number id with
    | none => .ok (none, obj)
    | some index =>
      let bit : Nat := 1 <<< index
      if obj.mask &&& bit = 0 then
        .ok (none, obj)
      else
        let bit_mask := ecma_builtin_mask_clear_bit obj.mask index
        match id with
        | .get_prototype_of_ul
        | .get_own_property_names_ul
        | .seal
        | .freeze
        | .prevent_extensions_ul
        | .is_sealed_ul
        | .is_frozen_ul
        | .is_extensible
        | .keys
        | .get_own_property_descriptor_ul
        | .create
        | .define_property_ul
        | .define_properties_ul =>
          let value := ecma_value.function_object ECMA_BUILTIN_ID_OBJECT id
          let prop : ecma_property :=
            { name := prop_name, writable := true, enumerable := false,
              configurable := true, value := value }
          .ok (some prop,
               { obj with mask := bit_mask, properties := obj.properties ++ [prop] })
        | .prototype => .error (.unimplemented "Object.prototype" [])
        | .length =>
          let prop : ecma_property :=
            { name := prop_name, writable := false, enumerable := false,
              configurable := false, value := ecma_value.number 1 }
          .ok (some prop,
               { obj with mask := bit_mask, properties := obj.properties ++ [prop] })
        | _ => .error .unreachable

/-- The thirteen routine identifiers of the Object built-in's dispatch
enumeration. -/
def ecma_builtin_object_routine_ids : List ecma_magic_string_id :=
  [ .get_prototype_of_ul,
    .get_own_property_names_ul,
    .seal,
    .freeze,
    .prevent_extensions_ul,
    .is_sealed_ul,
    .is_frozen_ul,
    .is_extensible,
    .keys,
    .get_own_property_descriptor_ul,
    .create,
    .define_properties_ul,
    .define_property_ul ]

/-- The handler-name each routine identifier dispatches to. -/
def ecma_builtin_object_routine_name : ecma_magic_string_id → String
  | .get_prototype_of_ul => "getPrototypeOf"
  | .get_own_property_names_ul => "getOwnPropertyNames"
  | .seal => "seal"
  | .freeze => "freeze"
  | .prevent_extensions_ul => "preventExtensions"
  | .is_sealed_ul => "isSealed"
  | .is_frozen_ul => "isFrozen"
  | .is_extensible => "isExtensible"
  | .keys => "keys"
  | .get_own_property_descriptor_ul => "getOwnPropertyDescriptor"
  | .create => "create"
  | .define_properties_ul => "defineProperties"
  | .define_property_ul => "defineProperty"
  | _ => ""

/-- Number of set bits of a natural number (fuel-driven so it evaluates in
the kernel; the fuel argument bounds the recursion depth). -/
def countSetBitsAux : Nat → Nat → Nat
  | 0, _ => 0
  | fuel + 1, n => if n = 0 then 0 else n % 2 + countSetBitsAux fuel (n / 2)

/-- Number of set bits of a natural number. -/
def countSetBits (n : Nat) : Nat := countSetBitsAux n n

instance except_decidable_eq {e a : Type} [DecidableEq e] [DecidableEq a] :
    DecidableEq (Except e a) := fun
  | .error x, .error y =>
    if h : x = y then .isTrue (by rw [h]) else .isFalse (fun hh => h (Except.error.inj hh))
  | .error _, .ok _ => .isFalse (fun hh => Except.noConfusion hh)
  | .ok _, .error _ => .isFalse (fun hh => Except.noConfusion hh)
  | .ok x, .ok y =>
    if h : x = y then .isTrue (by rw [h]) else .isFalse (fun hh => h (Except.ok.inj hh))

/-- Any index the binary search returns lies below the bound that dominates
its upper search limit. -/
theorem ecma_builtin_bin_search_aux_index_lt (codes : List Nat) (target n0 : Nat) :
    ∀ (fuel lo hi i : Nat), hi ≤ n0 →
      ecma_builtin_bin_search_aux codes target fuel lo hi = some i → i < n0 := by
  intro fuel
  induction fuel with
  | zero => intro lo hi i _ h; simp [ecma_builtin_bin_search_aux] at h
  | succ fuel ih =>
    intro lo hi i hhi h
    simp only [ecma_builtin_bin_search_aux] at h
    by_cases hlh : lo < hi
    · rw [if_pos hlh] at h
      by_cases heq : target = codes.getD ((lo + hi) / 2) 0
      · rw [if_pos heq] at h
        have : (lo + hi) / 2 < hi := by omega
        cases h
        omega
      · rw [if_neg heq] at h
        by_cases hlt : target < codes.getD ((lo + hi) / 2) 0
        · rw [if_pos hlt] at h
          exact ih lo ((lo + hi) / 2) i (by omega) h
        · rw [if_neg hlt] at h
          exact ih ((lo + hi) / 2 + 1) hi i hhi h
    · rw [if_neg hlh] at h
      cases h

/-- Bit j of the mask after clearing bit index: unchanged unless j = index
(for j below the mask width). -/
theorem testBit_mask_clear_bit (m index j : Nat) (hj : j < 32) :
    (ecma_builtin_mask_clear_bit m index).testBit j = (m.testBit j && !(decide (j = index))) := by
  simp only [ecma_builtin_mask_clear_bit, Nat.testBit_and, Nat.testBit_xor,
    Nat.testBit_two_pow_sub_one, Nat.shiftLeft_eq, one_mul, Nat.testBit_two_pow]
  rcases Decidable.em (j = index) with h | h
  · subst h; simp [hj]
  · have h2 : ¬(index = j) := fun hh => h hh.symm
    simp [hj, h, h2]

/-- Bits at or above the mask width stay clear after a clear step when the
mask is a uint32 value. -/
theorem testBit_mask_clear_bit_high (m index j : Nat) (hj : 32 ≤ j) (hm : m < 2 ^ 32) :
    (ecma_builtin_mask_clear_bit m index).testBit j = false := by
  have hle : ecma_builtin_mask_clear_bit m index ≤ m := Nat.and_le_left
  exact Nat.testBit_eq_false_of_lt
    (lt_of_le_of_lt hle (lt_of_lt_of_le hm (Nat.pow_le_pow_right (by omega) hj)))

/-- Clearing a bit never increases the mask. -/
theorem mask_clear_bit_le (m index : Nat) : ecma_builtin_mask_clear_bit m index ≤ m :=
  Nat.and_le_left

/-- Folding clear steps never increases the mask. -/
theorem foldl_mask_clear_le (l : List Nat) (m : Nat) :
    List.foldl ecma_builtin_mask_clear_bit m l ≤ m := by
  induction l generalizing m with
  | nil => exact le_refl m
  | cons i l ih => exact le_trans (ih (ecma_builtin_mask_clear_bit m i)) (mask_clear_bit_le m i)

/-- Bit j after folding clear steps over a list of indices: the original
bit, masked off exactly when j occurs in the list. -/
theorem testBit_foldl_mask_clear (l : List Nat) (m j : Nat) (hj : j < 32) :
    (List.foldl ecma_builtin_mask_clear_bit m l).testBit j =
      (m.testBit j && !(decide (j ∈ l))) := by
  induction l generalizing m with
  | nil => simp
  | cons i l ih =>
    simp only [List.foldl_cons]
    rw [ih (ecma_builtin_mask_clear_bit m i)]
    rw [testBit_mask_clear_bit m i j hj]
    by_cases hji : j = i
    · subst hji; simp
    · by_cases hjl : j ∈ l <;> simp [hji, hjl]

/-- Clearing each of the fifteen bit positions exactly once, in any order,
empties the freshly initialized mask. -/
theorem mask_all_cleared (order : List Nat) (hperm : order.Perm (List.range 15)) :
    List.foldl ecma_builtin_mask_clear_bit ecma_builtin_init_object_object.mask order = 0 := by
  apply Nat.eq_of_testBit_eq
  intro j
  rcases lt_or_ge j 32 with hj | hj
  · rw [testBit_foldl_mask_clear order _ j hj]
    have hmem : (j ∈ order) ↔ j < 15 := by
      rw [hperm.mem_iff, List.mem_range]
    by_cases hj15 : j < 15
    · simp [hmem, hj15]
    · have : ecma_builtin_init_object_object.mask = 2 ^ 15 - 1 := by decide
      rw [this, Nat.testBit_two_pow_sub_one]
      simp [hj15]
  · have h1 : List.foldl ecma_builtin_mask_clear_bit ecma_builtin_init_object_object.mask order ≤
        ecma_builtin_init_object_object.mask := foldl_mask_clear_le _ _
    have h2 : ecma_builtin_init_object_object.mask < 2 ^ 32 := by decide
    rw [Nat.testBit_eq_false_of_lt
      (lt_of_le_of_lt h1 (lt_of_lt_of_le h2 (Nat.pow_le_pow_right (by omega) hj)))]
    simp

/-- The and of a mask with a single-bit value vanishes exactly when the
tested bit is clear. -/
theorem and_one_shiftLeft_eq_zero_iff (m i : Nat) :
    m &&& (1 <<< i) = 0 ↔ m.testBit i = false := by
  constructor
  · intro h
    have h2 := congrArg (fun x => Nat.testBit x i) h
    simp only [Nat.testBit_and, Nat.shiftLeft_eq, one_mul, Nat.testBit_two_pow,
      Nat.zero_testBit] at h2
    simpa using h2
  · intro h
    apply Nat.eq_of_testBit_eq
    intro j
    simp only [Nat.testBit_and, Nat.shiftLeft_eq, one_mul, Nat.testBit_two_pow,
      Nat.zero_testBit]
    by_cases hij : i = j
    · subst hij; simp [h]
    · simp [hij]

/-- A clear step on a set bit clears that bit and leaves every other bit
unchanged, for a uint32 mask and an in-range bit position. -/
theorem clear_bit_conclusion (m i : Nat) (hi : i < 32) (hm : m < 2 ^ 32)
    (hbit : ¬(m &&& (1 <<< i) = 0)) :
    m.testBit i = true ∧ (ecma_builtin_mask_clear_bit m i).testBit i = false ∧
      ∀ j, j ≠ i → (ecma_builtin_mask_clear_bit m i).testBit j = m.testBit j := by
  refine ⟨?_, ?_, ?_⟩
  · rcases Bool.eq_false_or_eq_true (m.testBit i) with h | h
    · exact h
    · exact absurd ((and_one_shiftLeft_eq_zero_iff m i).2 h) hbit
  · rw [testBit_mask_clear_bit m i i hi]; simp
  · intro j hj
    rcases lt_or_ge j 32 with hc | hc
    · rw [testBit_mask_clear_bit m i j hc]; simp [hj]
    · rw [testBit_mask_clear_bit_high m i j hc hm,
        Nat.testBit_eq_false_of_lt (lt_of_lt_of_le hm (Nat.pow_le_pow_right (by omega) hc))]

/-- A successful instantiation through the source path clears exactly the
found bit of the mask: shared workhorse behind the accounting claims. -/
theorem instantiation_clears_exactly_one_bit (st st' : ecma_builtin_object_state)
    (id : ecma_magic_string_id) (p : ecma_property) (i : Nat)
    (hfind : ecma_builtin_bin_search_for_magic_string_id_in_array
        ecma_builtin_object_property_names ecma_builtin_object_property_number id = some i)
    (hm : st.mask < 2 ^ 32)
    (h : ecma_builtin_object_try_to_instantiate_property st (.magic id) = .ok (some p, st')) :
    i < 32 ∧ st.mask.testBit i = true ∧ st'.mask.testBit i = false ∧
      ∀ j, j ≠ i → st'.mask.testBit j = st.mask.testBit j := by
  have hi15 : i < 15 := by
    have hfind2 := hfind
    simp only [ecma_builtin_bin_search_for_magic_string_id_in_array] at hfind2
    exact ecma_builtin_bin_search_aux_index_lt _ _ 15
      (ecma_builtin_object_property_number + 1) 0 ecma_builtin_object_property_number i
      (by decide) hfind2
  simp only [ecma_builtin_object_try_to_instantiate_property, ecma_is_string_magic, hfind] at h
  by_cases hbit : st.mask &&& (1 <<< i) = 0
  · rw [if_pos hbit] at h
    simp at h
  · rw [if_neg hbit] at h
    cases id <;>
      first
      | (simp at h; done)
      | (simp only [Except.ok.injEq, Prod.mk.injEq, Option.some.injEq] at h
         obtain ⟨hp, hst⟩ := h
         subst hst
         exact ⟨by omega, clear_bit_conclusion st.mask i (by omega) hm hbit⟩)

/-- Padding fact for one extracted argument: every position at or beyond
the supplied count holds Undefined. -/
theorem undef_pad_one (x : ecma_value) (n i : Nat) (h : n ≤ i) :
    [if n ≥ 1 then x else ecma_make_simple_value .undefined].getD i
      (ecma_make_simple_value .undefined) = ecma_make_simple_value .undefined := by
  rcases i with _ | i
  · simp only [List.getD_cons_zero]
    rw [if_neg (by omega)]
  · simp [List.getD]

/-- Padding fact for two extracted arguments. -/
theorem undef_pad_two (x0 x1 : ecma_value) (n i : Nat) (h : n ≤ i) :
    [if n ≥ 1 then x0 else ecma_make_simple_value .undefined,
     if n ≥ 2 then x1 else ecma_make_simple_value .undefined].getD i
      (ecma_make_simple_value .undefined) = ecma_make_simple_value .undefined := by
  rcases i with _ | _ | i
  · simp only [List.getD_cons_zero]
    rw [if_neg (by omega)]
  · simp only [List.getD_cons_succ, List.getD_cons_zero]
    rw [if_neg (by omega)]
  · simp [List.getD]

/-- Padding fact for three extracted arguments. -/
theorem undef_pad_three (x0 x1 x2 : ecma_value) (n i : Nat) (h : n ≤ i) :
    [if n ≥ 1 then x0 else ecma_make_simple_value .undefined,
     if n ≥ 2 then x1 else ecma_make_simple_value .undefined,
     if n ≥ 3 then x2 else ecma_make_simple_value .undefined].getD i
      (ecma_make_simple_value .undefined) = ecma_make_simple_value .undefined := by
  rcases i with _ | _ | _ | i
  · simp only [List.getD_cons_zero]
    rw [if_neg (by omega)]
  · simp only [List.getD_cons_succ, List.getD_cons_zero]
    rw [if_neg (by omega)]
  · simp only [List.getD_cons_succ, List.getD_cons_zero]
    rw [if_neg (by omega)]
  · simp [List.getD]

/-- C1: on the freshly initialized Object built-in (all 15 property bits
pending), a lazy-instantiation request for any of the 13 routine
identifiers (keys among them) creates and returns a new named Data property
that is writable, non-enumerable and configurable, whose value is the
callable Function object built by the dispatcher's registration path, and
clears exactly the bit of that identifier: the pending mask drops from 15
bits set to 14 bits set. -/
theorem object_routine_lazy_instantiation_creates_function_property :
    ∀ id ∈ ecma_builtin_object_routine_ids,
      ∃ (p : ecma_property) (st' : ecma_builtin_object_state),
        ecma_builtin_object_try_to_instantiate_property ecma_builtin_init_object_object
          (.magic id) = .ok (some p, st') ∧
        (∃ i, ecma_builtin_bin_search_for_magic_string_id_in_array
            ecma_builtin_object_property_names ecma_builtin_object_property_number id = some i ∧
          st'.mask = ecma_builtin_mask_clear_bit ecma_builtin_init_object_object.mask i) ∧
        p.name = .magic id ∧
        p.writable = true ∧ p.enumerable = false ∧ p.configurable = true ∧
        ecma_value_is_callable_function p.value = true ∧
        p.value = .function_object ECMA_BUILTIN_ID_OBJECT id ∧
        st'.properties = ecma_builtin_init_object_object.properties ++ [p] ∧
        countSetBits ecma_builtin_init_object_object.mask = 15 ∧
        countSetBits st'.mask = 14 := by
  intro id hid
  fin_cases hid <;> exact ⟨_, _, rfl, ⟨_, rfl, by decide⟩, by decide⟩

/-- Witness for C1: the instantiation of keys, with the membership
hypothesis discharged concretely. -/
theorem object_routine_lazy_instantiation_creates_function_property_witness :
    ecma_magic_string_id.keys ∈ ecma_builtin_object_routine_ids ∧
    (∃ (p : ecma_property) (st' : ecma_builtin_object_state),
      ecma_builtin_object_try_to_instantiate_property ecma_builtin_init_object_object
        (.magic .keys) = .ok (some p, st') ∧
      (∃ i, ecma_builtin_bin_search_for_magic_string_id_in_array
          ecma_builtin_object_property_names ecma_builtin_object_property_number .keys = some i ∧
        st'.mask = ecma_builtin_mask_clear_bit ecma_builtin_init_object_object.mask i) ∧
      p.name = .magic .keys ∧
      p.writable = true ∧ p.enumerable = false ∧ p.configurable = true ∧
      ecma_value_is_callable_function p.value = true ∧
      p.value = .function_object ECMA_BUILTIN_ID_OBJECT .keys ∧
      st'.properties = ecma_builtin_init_object_object.properties ++ [p] ∧
      countSetBits ecma_builtin_init_object_object.mask = 15 ∧
      countSetBits st'.mask = 14) :=
  ⟨by decide,
   object_routine_lazy_instantiation_creates_function_property .keys (by decide)⟩

/-- C2: lazy instantiation is idempotent. First, whenever the binary search
finds the identifier at index i and bit i of the object's mask is already
clear, the instantiation reports not-found and returns the state unchanged
(no re-synthesis). Second, for every identifier in the table, running a
first request on the fresh built-in and then a second request for the same
identifier on the resulting state reports not-found and leaves that state
unchanged. -/
theorem object_lazy_instantiation_idempotent :
    (∀ (st : ecma_builtin_object_state) (id : ecma_magic_string_id) (i : Nat),
      ecma_builtin_bin_search_for_magic_string_id_in_array
        ecma_builtin_object_property_names ecma_builtin_object_property_number id = some i →
      st.mask &&& (1 <<< i) = 0 →
      ecma_builtin_object_try_to_instantiate_property st (.magic id) = .ok (none, st)) ∧
    (∀ id ∈ ecma_builtin_object_property_names,
      (match ecma_builtin_object_try_to_instantiate_property ecma_builtin_init_object_object
          (.magic id) with
       | .ok (_, st') =>
          decide (ecma_builtin_object_try_to_instantiate_property st' (.magic id) =
            .ok (none, st'))
       | .error _ => true) = true) := by
  constructor
  · intro st id i hfind hbit
    simp only [ecma_builtin_object_try_to_instantiate_property, ecma_is_string_magic, hfind]
    rw [if_pos hbit]
  · decide

/-- Witness for C2: on a state whose keys bit (index 14) is already clear,
the request for keys reports not-found and changes nothing. -/
theorem object_lazy_instantiation_idempotent_witness :
    ecma_builtin_bin_search_for_magic_string_id_in_array
      ecma_builtin_object_property_names ecma_builtin_object_property_number .keys = some 14 ∧
    (16383 : Nat) &&& (1 <<< 14) = 0 ∧
    ecma_builtin_object_try_to_instantiate_property
      { class_id := ECMA_OBJECT_CLASS_OBJECT, built_in_id := ECMA_BUILTIN_ID_OBJECT,
        is_builtin := true, mask := 16383, properties := [] } (.magic .keys) =
      .ok (none,
        { class_id := ECMA_OBJECT_CLASS_OBJECT, built_in_id := ECMA_BUILTIN_ID_OBJECT,
          is_builtin := true, mask := 16383, properties := [] }) :=
  ⟨by decide, by decide,
   object_lazy_instantiation_idempotent.1
     { class_id := ECMA_OBJECT_CLASS_OBJECT, built_in_id := ECMA_BUILTIN_ID_OBJECT,
       is_builtin := true, mask := 16383, properties := [] } .keys 14 (by decide) (by decide)⟩

/-- C3: bitmask accounting. The fresh mask has exactly 15 bits set; every
successful instantiation clears exactly the found bit, leaving all other
bits unchanged; and folding the mask-clearing step over any permutation of
the 15 bit positions empties the mask. -/
theorem object_builtin_mask_accounting :
    countSetBits ecma_builtin_init_object_object.mask = 15 ∧
    (∀ (st st' : ecma_builtin_object_state) (id : ecma_magic_string_id)
        (p : ecma_property) (i : Nat),
      ecma_builtin_bin_search_for_magic_string_id_in_array
        ecma_builtin_object_property_names ecma_builtin_object_property_number id = some i →
      st.mask < 2 ^ 32 →
      ecma_builtin_object_try_to_instantiate_property st (.magic id) = .ok (some p, st') →
      i < 32 ∧ st.mask.testBit i = true ∧ st'.mask.testBit i = false ∧
        ∀ j, j ≠ i → st'.mask.testBit j = st.mask.testBit j) ∧
    (∀ order : List Nat, order.Perm (List.range ecma_builtin_object_property_number) →
      List.foldl ecma_builtin_mask_clear_bit ecma_builtin_init_object_object.mask order = 0) :=
  ⟨by decide,
   fun st st' id p i hfind hm h =>
     instantiation_clears_exactly_one_bit st st' id p i hfind hm h,
   fun order hperm => mask_all_cleared order hperm⟩

/-- Witness for C3: instantiating keys from the fresh state clears bit 14,
and clearing the positions 0..14 in order empties the fresh mask. -/
theorem object_builtin_mask_accounting_witness :
    (ecma_builtin_bin_search_for_magic_string_id_in_array
        ecma_builtin_object_property_names ecma_builtin_object_property_number .keys = some 14 ∧
      ecma_builtin_init_object_object.mask < 2 ^ 32 ∧
      ecma_builtin_object_try_to_instantiate_property ecma_builtin_init_object_object
        (.magic .keys) =
        .ok (some { name := .magic .keys, writable := true, enumerable := false,
                    configurable := true,
                    value := .function_object ECMA_BUILTIN_ID_OBJECT .keys },
             { class_id := ECMA_OBJECT_CLASS_OBJECT, built_in_id := ECMA_BUILTIN_ID_OBJECT,
               is_builtin := true, mask := 16383,
               properties := [{ name := .magic .keys, writable := true, enumerable := false,
                                configurable := true,
                                value := .function_object ECMA_BUILTIN_ID_OBJECT .keys }] }) ∧
      Nat.testBit 16383 14 = false) ∧
    ((List.range ecma_builtin_object_property_number).Perm
        (List.range ecma_builtin_object_property_number) ∧
      List.foldl ecma_builtin_mask_clear_bit ecma_builtin_init_object_object.mask
        (List.range ecma_builtin_object_property_number) = 0) :=
  ⟨⟨by decide, by decide, by decide,
    (object_builtin_mask_accounting.2.1 ecma_builtin_init_object_object
      { class_id := ECMA_OBJECT_CLASS_OBJECT, built_in_id := ECMA_BUILTIN_ID_OBJECT,
        is_builtin := true, mask := 16383,
        properties := [{ name := .magic .keys, writable := true, enumerable := false,
                         configurable := true,
                         value := .function_object ECMA_BUILTIN_ID_OBJECT .keys }] }
      .keys
      { name := .magic .keys, writable := true, enumerable := false,
        configurable := true, value := .function_object ECMA_BUILTIN_ID_OBJECT .keys }
      14 (by decide) (by decide) (by decide)).2.2.1⟩,
   ⟨List.Perm.refl _,
    object_builtin_mask_accounting.2.2 _ (List.Perm.refl _)⟩⟩

/-- C4: for every routine identifier and every supplied argument count, the
dispatcher defaults each argument position at or beyond the supplied count
to Undefined before invoking the handler (the fatal marker records the
arguments the handler received); in particular the three 2-argument
routines invoked with 0 supplied arguments receive Undefined twice. -/
theorem object_dispatch_defaults_missing_arguments_to_undefined :
    (∀ id ∈ ecma_builtin_object_routine_ids,
      ∀ (args : List ecma_value) (n : Nat),
        ∃ received, ecma_builtin_object_dispatch_routine id args n =
            .error (.unimplemented (ecma_builtin_object_routine_name id) received) ∧
          ∀ i, n ≤ i → received.getD i (ecma_make_simple_value .undefined) =
            ecma_make_simple_value .undefined) ∧
    (∀ args : List ecma_value,
      ecma_builtin_object_dispatch_routine .get_own_property_descriptor_ul args 0 =
        .error (.unimplemented "getOwnPropertyDescriptor"
          [ecma_make_simple_value .undefined, ecma_make_simple_value .undefined]) ∧
      ecma_builtin_object_dispatch_routine .create args 0 =
        .error (.unimplemented "create"
          [ecma_make_simple_value .undefined, ecma_make_simple_value .undefined]) ∧
      ecma_builtin_object_dispatch_routine .define_properties_ul args 0 =
        .error (.unimplemented "defineProperties"
          [ecma_make_simple_value .undefined, ecma_make_simple_value .undefined])) := by
  constructor
  · intro id hid
    fin_cases hid <;>
      first
      | exact fun args n => ⟨_, rfl, fun i hi => undef_pad_one _ n i hi⟩
      | exact fun args n => ⟨_, rfl, fun i hi => undef_pad_two _ _ n i hi⟩
      | exact fun args n => ⟨_, rfl, fun i hi => undef_pad_three _ _ _ n i hi⟩
  · exact fun args => ⟨rfl, rfl, rfl⟩

/-- Witness for C4: dispatching create with no supplied arguments, the
membership hypothesis discharged concretely. -/
theorem object_dispatch_defaults_missing_arguments_to_undefined_witness :
    ecma_magic_string_id.create ∈ ecma_builtin_object_routine_ids ∧
    (∃ received, ecma_builtin_object_dispatch_routine .create [] 0 =
        .error (.unimplemented (ecma_builtin_object_routine_name .create) received) ∧
      ∀ i, 0 ≤ i → received.getD i (ecma_make_simple_value .undefined) =
        ecma_make_simple_value .undefined) :=
  ⟨by decide,
   object_dispatch_defaults_missing_arguments_to_undefined.1 .create (by decide) [] 0⟩

/-- C5: on the freshly initialized Object built-in, a lazy-instantiation
request for length yields a named Data property that is non-writable,
non-enumerable and non-configurable, whose value is the Number 1, and
clears only the length bit (index 1) of the pending mask. -/
theorem object_length_lazy_instantiation_number_one :
    ∃ (p : ecma_property) (st' : ecma_builtin_object_state),
      ecma_builtin_object_try_to_instantiate_property ecma_builtin_init_object_object
        (.magic .length) = .ok (some p, st') ∧
      p.name = .magic .length ∧
      p.writable = false ∧ p.enumerable = false ∧ p.configurable = false ∧
      p.value = .number 1 ∧
      ecma_builtin_bin_search_for_magic_string_id_in_array
        ecma_builtin_object_property_names ecma_builtin_object_property_number .length =
          some 1 ∧
      ecma_builtin_init_object_object.mask.testBit 1 = true ∧
      st'.mask = ecma_builtin_init_object_object.mask - 2 ^ 1 ∧
      st'.mask = ecma_builtin_mask_clear_bit ecma_builtin_init_object_object.mask 1 ∧
      st'.properties = [p] ∧
      countSetBits st'.mask = 14 := ⟨_, _, rfl, by decide⟩

/-- C6: lazy instantiation on any object state reports not-found and leaves
the state (mask and property list) unchanged, both for every interned
identifier absent from the table (toString among them) and for every
property name that is not an interned magic string at all. -/
theorem object_instantiation_absent_name_not_found :
    (∀ id : ecma_magic_string_id, id ∉ ecma_builtin_object_property_names →
      ∀ st : ecma_builtin_object_state,
        ecma_builtin_object_try_to_instantiate_property st (.magic id) = .ok (none, st)) ∧
    (∀ (s : String) (st : ecma_builtin_object_state),
      ecma_builtin_object_try_to_instantiate_property st (.heap s) = .ok (none, st)) := by
  constructor
  · intro id h st
    cases id <;> first | rfl | (exact absurd (by decide) h)
  · intro s st
    rfl

/-- Witness for C6: requesting toString on the fresh built-in reports
not-found and changes nothing. -/
theorem object_instantiation_absent_name_not_found_witness :
    ecma_magic_string_id.to_string_ul ∉ ecma_builtin_object_property_names ∧
    ecma_builtin_object_try_to_instantiate_property ecma_builtin_init_object_object
      (.magic .to_string_ul) = .ok (none, ecma_builtin_init_object_object) :=
  ⟨by decide,
   object_instantiation_absent_name_not_found.1 .to_string_ul (by decide)
     ecma_builtin_init_object_object⟩

/-- C7: for every identifier in the 13-routine enumeration the dispatcher
routes to exactly the one handler named for it; for every identifier
outside the enumeration it reaches the fatal unreachable branch instead of
returning a completion value or falling through. -/
theorem object_dispatch_routes_to_unique_handler :
    (∀ id ∈ ecma_builtin_object_routine_ids,
      ∀ (args : List ecma_value) (n : Nat),
        ∃ received, ecma_builtin_object_dispatch_routine id args n =
          .error (.unimplemented (ecma_builtin_object_routine_name id) received)) ∧
    (∀ id : ecma_magic_string_id, id ∉ ecma_builtin_object_routine_ids →
      ∀ (args : List ecma_value) (n : Nat),
        ecma_builtin_object_dispatch_routine id args n = .error .unreachable) := by
  constructor
  · intro id hid
    fin_cases hid <;> exact fun args n => ⟨_, rfl⟩
  · intro id h args n
    cases id <;> first | rfl | (exact absurd (by decide) h)

/-- Witness for C7: keys dispatches to the keys handler, and prototype
(outside the routine enumeration) hits the unreachable branch. -/
theorem object_dispatch_routes_to_unique_handler_witness :
    (ecma_magic_string_id.keys ∈ ecma_builtin_object_routine_ids ∧
      ∃ received, ecma_builtin_object_dispatch_routine .keys [] 0 =
        .error (.unimplemented (ecma_builtin_object_routine_name .keys) received)) ∧
    (ecma_magic_string_id.prototype ∉ ecma_builtin_object_routine_ids ∧
      ecma_builtin_object_dispatch_routine .prototype [] 0 = .error .unreachable) :=
  ⟨⟨by decide, object_dispatch_routes_to_unique_handler.1 .keys (by decide) [] 0⟩,
   ⟨by decide, object_dispatch_routes_to_unique_handler.2 .prototype (by decide) [] 0⟩⟩

/-- C8: the table size is 15, below the 32-bit mask width asserted at build
time; the initial mask is computed without overflowing 32 bits; and every
index the table search returns is a valid bit position below 32. -/
theorem object_property_table_size_within_mask_width :
    ecma_builtin_object_property_number = 15 ∧
    ecma_builtin_object_property_number < 32 ∧
    (1 <<< ecma_builtin_object_property_number) - 1 < 2 ^ 32 ∧
    ecma_builtin_init_object_object.mask = (1 <<< ecma_builtin_object_property_number) - 1 ∧
    (∀ (id : ecma_magic_string_id) (i : Nat),
      ecma_builtin_bin_search_for_magic_string_id_in_array
        ecma_builtin_object_property_names ecma_builtin_object_property_number id = some i →
      i < 32) := by
  refine ⟨by decide, by decide, by decide, rfl, ?_⟩
  intro id i hf
  simp only [ecma_builtin_bin_search_for_magic_string_id_in_array] at hf
  have := ecma_builtin_bin_search_aux_index_lt _ _ 15
    (ecma_builtin_object_property_number + 1) 0 ecma_builtin_object_property_number i
    (by decide) hf
  omega

/-- Witness for C8: the index found for keys is 14, a valid bit position. -/
theorem object_property_table_size_within_mask_width_witness :
    ecma_builtin_bin_search_for_magic_string_id_in_array
      ecma_builtin_object_property_names ecma_builtin_object_property_number .keys =
        some 14 ∧
    (14 : Nat) < 32 :=
  ⟨by decide,
   object_property_table_size_within_mask_width.2.2.2.2 .keys 14 (by decide)⟩

/-- C9: each of the 13 Object built-in routine handlers signals the
explicit not-implemented fatal marker on every invocation, never a
completion value. -/
theorem object_routine_handlers_signal_unimplemented :
    (∀ a, ecma_builtin_object_object_get_prototype_of a =
      .error (.unimplemented "getPrototypeOf" [a])) ∧
    (∀ a, ecma_builtin_object_object_get_own_property_names a =
      .error (.unimplemented "getOwnPropertyNames" [a])) ∧
    (∀ a, ecma_builtin_object_object_seal a = .error (.unimplemented "seal" [a])) ∧
    (∀ a, ecma_builtin_object_object_freeze a = .error (.unimplemented "freeze" [a])) ∧
    (∀ a, ecma_builtin_object_object_prevent_extensions a =
      .error (.unimplemented "preventExtensions" [a])) ∧
    (∀ a, ecma_builtin_object_object_is_sealed a = .error (.unimplemented "isSealed" [a])) ∧
    (∀ a, ecma_builtin_object_object_is_frozen a = .error (.unimplemented "isFrozen" [a])) ∧
    (∀ a, ecma_builtin_object_object_is_extensible a =
      .error (.unimplemented "isExtensible" [a])) ∧
    (∀ a, ecma_builtin_object_object_keys a = .error (.unimplemented "keys" [a])) ∧
    (∀ a b, ecma_builtin_object_object_get_own_property_descriptor a b =
      .error (.unimplemented "getOwnPropertyDescriptor" [a, b])) ∧
    (∀ a b, ecma_builtin_object_object_create a b =
      .error (.unimplemented "create" [a, b])) ∧
    (∀ a b, ecma_builtin_object_object_define_properties a b =
      .error (.unimplemented "defineProperties" [a, b])) ∧
    (∀ a b c, ecma_builtin_object_object_define_property a b c =
      .error (.unimplemented "defineProperty" [a, b, c])) :=
  ⟨fun _ => rfl, fun _ => rfl, fun _ => rfl, fun _ => rfl, fun _ => rfl, fun _ => rfl,
   fun _ => rfl, fun _ => rfl, fun _ => rfl, fun _ _ => rfl, fun _ _ => rfl,
   fun _ _ => rfl, fun _ _ _ => rfl⟩

/-- C10: for every routine identifier, the number of argument positions the
dispatcher extracts (the length of the recorded argument list the handler
receives) equals the value of
ecma_builtin_object_get_routine_parameters_number for that identifier. -/
theorem object_dispatch_argument_count_matches_parameters_number :
    ∀ id ∈ ecma_builtin_object_routine_ids,
      ∀ (args : List ecma_value) (n : Nat),
        ∃ received, ecma_builtin_object_dispatch_routine id args n =
            .error (.unimplemented (ecma_builtin_object_routine_name id) received) ∧
          ecma_builtin_object_get_routine_parameters_number id = .ok received.length := by
  intro id hid
  fin_cases hid <;> exact fun args n => ⟨_, rfl, rfl⟩

/-- Witness for C10: defineProperty extracts three argument positions, the
value of its parameters-number entry. -/
theorem object_dispatch_argument_count_matches_parameters_number_witness :
    ecma_magic_string_id.define_property_ul ∈ ecma_builtin_object_routine_ids ∧
    (∃ received, ecma_builtin_object_dispatch_routine .define_property_ul [] 0 =
        .error (.unimplemented (ecma_builtin_object_routine_name .define_property_ul)
          received) ∧
      ecma_builtin_object_get_routine_parameters_number .define_property_ul =
        .ok received.length) :=
  ⟨by decide,
   object_dispatch_argument_count_matches_parameters_number .define_property_ul
     (by decide) [] 0⟩
